import Mathlib

/-!
Verification development for the `PriceAggregationService` class
(`price-aggregation-service.js`): a per-pair price/volume observation store
with VWAP, TWAP and source-weighted aggregation, z-score and IQR outlier
filters, and a confidence score.

The JavaScript `Decimal` values (arbitrary-precision decimals) are embedded
as exact rationals `ℚ`; timestamps (milliseconds) as `ℤ`.  The statistics
helpers (`mean`, `standardDeviation`, `quantile`) come from the
`simple-statistics` library the source imports; they are embedded here
following that library's documented algorithms (population variance;
quantile by the ceil/midpoint rule on a sorted copy).  The square root in
the z-score test is eliminated by squaring: for a positive standard
deviation `σ` and nonnegative threshold `t`, `|x − μ|/σ ≤ t ↔ (x − μ)² ≤ t²·σ²`,
and `σ = 0 ↔ variance = 0`, so the filter is stated over `ℚ` without `√`.
The square root in the confidence score cannot be eliminated, so the
confidence function is real-valued, using `Real.sqrt`.
-/

namespace PriceAggregation

/-- Aggregation configuration, mirroring the `config` object of the
constructor (defaults applied by `||`). -/
structure Config where
  zScoreThreshold : ℚ
  iqrMultiplier : ℚ
  minDataPoints : ℕ
  maxAge : ℤ
  twapWindow : ℤ
  vwapWindow : ℤ
  minVolume : ℚ
  maxHistorySize : ℕ
deriving DecidableEq

/-- The constructor defaults: z = 2.5, IQR multiplier 1.5, 3 data points,
5-minute max age, 1-hour windows, volume floor 0.01, history cap 1000. -/
def defaultConfig : Config :=
  { zScoreThreshold := 5/2
    iqrMultiplier := 3/2
    minDataPoints := 3
    maxAge := 300000
    twapWindow := 3600000
    vwapWindow := 3600000
    minVolume := 1/100
    maxHistorySize := 1000 }

/-- A normalized observation as produced by `normalizePriceData` (the
`metadata` bag is preserved but unused by the arithmetic and is not
modeled). -/
structure Obs where
  price : ℚ
  volume : Option ℚ
  timestamp : ℤ
  source : String
  weight : ℚ
deriving DecidableEq

/-- An entry of the parallel volume history, as pushed by `addPriceData`. -/
structure VolEntry where
  volume : ℚ
  price : ℚ
  timestamp : ℤ
  source : String
deriving DecidableEq

/-- The `stats` counters of the service. -/
structure Stats where
  totalPricesProcessed : ℕ
  outliersDetected : ℕ
  vwapCalculations : ℕ
  twapCalculations : ℕ
  lastUpdate : Option ℤ
deriving DecidableEq

/-- The mutable state of the service: the two per-token history maps and
the counters.  A token → list function models the `Map`; a missing key is
the empty list. -/
structure ServiceState where
  priceHistory : String → List Obs
  volumeHistory : String → List VolEntry
  stats : Stats

/-- The fresh state built by the constructor. -/
def initialState : ServiceState :=
  { priceHistory := fun _ => []
    volumeHistory := fun _ => []
    stats := { totalPricesProcessed := 0, outliersDetected := 0,
               vwapCalculations := 0, twapCalculations := 0, lastUpdate := none } }

/-- The source-weight table set up by `initializeSourceWeights`. -/
def sourceWeights (s : String) : Option ℚ :=
  if s = ("okx") then some 1
  else if s = ("raydium") then some (4/5)
  else if s = ("orca") then some (4/5)
  else if s = ("binance") then some 1
  else if s = ("coinbase") then some (9/10)
  else none

/-- A raw numeric field of the incoming `priceData` object: absent
(`undefined`), present but not parseable as a number (`new Decimal` throws),
or a number. -/
inductive RawNum where
  | absent : RawNum
  | invalid : RawNum
  | num : ℚ → RawNum
deriving DecidableEq

/-- The raw `priceData` argument of `addPriceData`. -/
structure RawPriceData where
  price : RawNum
  volume : RawNum
  timestamp : Option ℤ
  source : Option String
deriving DecidableEq

/-- Embeds `new Decimal(priceData.price || 0)`: an absent (falsy) price becomes 0,
an unparseable one throws (`none`). -/
def decodePrice : RawNum → Option ℚ
  | RawNum.absent => some 0
  | RawNum.invalid => none
  | RawNum.num q => some q

/-- Embeds `priceData.volume ? new Decimal(priceData.volume) : null`: an absent or
zero (falsy) volume becomes `null`; an unparseable one throws (`none`
outer). -/
def decodeVolume : RawNum → Option (Option ℚ)
  | RawNum.absent => some none
  | RawNum.invalid => none
  | RawNum.num q => if q = 0 then some none else some (some q)

/-- Embeds `priceData.timestamp || Date.now()`: absent or 0 falls back to now. -/
def decodeTimestamp (now : ℤ) : Option ℤ → ℤ
  | none => now
  | some t => if t = 0 then now else t

/-- Embeds `priceData.source || unknown`: absent or empty falls back. -/
def decodeSource : Option String → String
  | none => ("unknown")
  | some s => if s = ("") then ("unknown") else s

/-- Embeds `this.sourceWeights.get(priceData.source) || 0.5` (lookup on the raw
source field; a zero table entry would also be replaced, being falsy). -/
def lookupWeight : Option String → ℚ
  | none => 1/2
  | some s =>
    match sourceWeights s with
    | none => 1/2
    | some w => if w = 0 then 1/2 else w

/-- Embeds `normalizePriceData`: `none` models the method throwing (an unparseable
price or volume). -/
def normalizePriceData (now : ℤ) (priceData : RawPriceData) : Option Obs :=
  match decodePrice priceData.price, decodeVolume priceData.volume with
  | some p, some v =>
    some { price := p
           volume := v
           timestamp := decodeTimestamp now priceData.timestamp
           source := decodeSource priceData.source
           weight := lookupWeight priceData.source }
  | _, _ => none

/-- The body of `cleanupOldData` for one list: keep entries with
`now − timestamp ≤ maxAge`, then `splice` away the front so that at most
`maxSize` entries remain. -/
def cleanupList (maxAge : ℤ) (maxSize : ℕ) (now : ℤ) (ts : α → ℤ) (l : List α) : List α :=
  if maxSize < (l.filter (fun d => decide (now - ts d ≤ maxAge))).length then
    (l.filter (fun d => decide (now - ts d ≤ maxAge))).drop
      ((l.filter (fun d => decide (now - ts d ≤ maxAge))).length - maxSize)
  else l.filter (fun d => decide (now - ts d ≤ maxAge))

/-- Embeds `cleanupOldData(token)`: age- and size-bound both histories of one
token. -/
def cleanupOldData (cfg : Config) (now : ℤ) (st : ServiceState) (token : String) : ServiceState :=
  { priceHistory := fun t =>
      if t = token then
        cleanupList cfg.maxAge cfg.maxHistorySize now (fun o => o.timestamp) (st.priceHistory token)
      else st.priceHistory t
    volumeHistory := fun t =>
      if t = token then
        cleanupList cfg.maxAge cfg.maxHistorySize now (fun e => e.timestamp) (st.volumeHistory token)
      else st.volumeHistory t
    stats := st.stats }

/-- Embeds `addPriceData(token, priceData)`: normalize (an exception leaves the
state untouched), push to the price history, push to the volume history
when the normalized volume is non-null, clean up, bump the counters. -/
def addPriceData (cfg : Config) (now : ℤ) (st : ServiceState) (token : String)
    (priceData : RawPriceData) : ServiceState :=
  match normalizePriceData now priceData with
  | none => st
  | some nd =>
    let pushed : ServiceState :=
      { priceHistory := fun t =>
          if t = token then st.priceHistory token ++ [nd] else st.priceHistory t
        volumeHistory := fun t =>
          if t = token then
            match nd.volume with
            | some v => st.volumeHistory token ++
                [{ volume := v, price := nd.price, timestamp := nd.timestamp, source := nd.source }]
            | none => st.volumeHistory token
          else st.volumeHistory t
        stats := st.stats }
    let cleaned := cleanupOldData cfg now pushed token
    { cleaned with stats :=
        { cleaned.stats with
            totalPricesProcessed := cleaned.stats.totalPricesProcessed + 1
            lastUpdate := some now } }

/-- Embeds `clearTokenData(token)`: delete both histories of one token. -/
def clearTokenData (st : ServiceState) (token : String) : ServiceState :=
  { priceHistory := fun t => if t = token then [] else st.priceHistory t
    volumeHistory := fun t => if t = token then [] else st.volumeHistory t
    stats := st.stats }

/-- Arithmetic mean (`mean` of simple-statistics). -/
def mean (xs : List ℚ) : ℚ := xs.sum / xs.length

/-- Population variance, the square of `standardDeviation` of
simple-statistics (mean of squared deviations). -/
def variance (xs : List ℚ) : ℚ :=
  (xs.map (fun x => (x - mean xs) ^ 2)).sum / xs.length

/-- The `quantile` of simple-statistics on an ascending-sorted list: the exact
boundaries for p = 0 and 1; the element at `⌈n·p⌉ − 1` when `n·p` is not an
integer; otherwise the midpoint of the two straddling elements for an
even-length list and the element at `n·p` for an odd-length one. -/
def quantileSorted (xs : List ℚ) (p : ℚ) : ℚ :=
  if p = 1 then xs.getLastD 0
  else if p = 0 then xs.headD 0
  else if ((xs.length : ℚ) * p).den ≠ 1 then xs.getD (⌈(xs.length : ℚ) * p⌉.toNat - 1) 0
  else if xs.length % 2 = 0 then
    (xs.getD ((((xs.length : ℚ) * p).num).toNat - 1) 0 +
      xs.getD (((xs.length : ℚ) * p).num).toNat 0) / 2
  else xs.getD (((xs.length : ℚ) * p).num).toNat 0

/-- JavaScript `[...new Set(l)]`: deduplicate keeping first occurrences. -/
def dedupFirst : List String → List String
  | [] => []
  | a :: l => a :: dedupFirst (l.filter (fun b => decide (b ≠ a)))
termination_by l => l.length
decreasing_by
  simp only [List.length_cons]
  exact Nat.lt_succ_of_le (List.length_filter_le _ _)

/-- Embeds `removeOutliersZScore(data, values)`: keep the entries whose value has
`|x − μ|/σ ≤ threshold`; pass everything through when fewer than 3 values
or when `σ = 0`.  Stated over `ℚ` by squaring the comparison
(`|x − μ|/σ ≤ t ↔ (x − μ)² ≤ t²·σ²` for `σ > 0` and the nonnegative
thresholds the service uses), with `σ = 0 ↔ variance = 0`. -/
def removeOutliersZScore (threshold : ℚ) (data : List α) (values : List ℚ) : List α :=
  if values.length < 3 then data
  else if variance values = 0 then data
  else
    ((data.zip values).filter
      (fun p => decide ((p.2 - mean values) ^ 2 ≤ threshold ^ 2 * variance values))).map Prod.fst

/-- The `[lowerBound, upperBound]` interval computed by
`removeOutliersIQR` from the sorted values. -/
def iqrBounds (multiplier : ℚ) (vals : List ℚ) : ℚ × ℚ :=
  (quantileSorted (vals.insertionSort (fun a b => a ≤ b)) (1/4) -
     multiplier * (quantileSorted (vals.insertionSort (fun a b => a ≤ b)) (3/4) -
       quantileSorted (vals.insertionSort (fun a b => a ≤ b)) (1/4)),
   quantileSorted (vals.insertionSort (fun a b => a ≤ b)) (3/4) +
     multiplier * (quantileSorted (vals.insertionSort (fun a b => a ≤ b)) (3/4) -
       quantileSorted (vals.insertionSort (fun a b => a ≤ b)) (1/4)))

/-- Embeds `removeOutliersIQR(data, field)`: keep entries whose field lies within
`[Q1 − m·IQR, Q3 + m·IQR]`; pass everything through for fewer than 4
entries. -/
def removeOutliersIQR (multiplier : ℚ) (field : α → ℚ) (data : List α) : List α :=
  if data.length < 4 then data
  else
    data.filter (fun d =>
      decide ((iqrBounds multiplier (data.map field)).1 ≤ field d ∧
        field d ≤ (iqrBounds multiplier (data.map field)).2))

/-- Embeds `removeOutliers(data, field)`: z-score filter first, then the IQR
filter on the survivors; skipped entirely below `minDataPoints`.  (The
`outliersDetected` counter bump is not modeled; it feeds no return value.) -/
def removeOutliers (cfg : Config) (field : α → ℚ) (data : List α) : List α :=
  if data.length < cfg.minDataPoints then data
  else
    removeOutliersIQR cfg.iqrMultiplier field
      (removeOutliersZScore cfg.zScoreThreshold data (data.map field))

/-- Embeds `windowMs = windowMs || this.config.xxxWindow`: a missing or zero
(falsy) argument falls back to the configured default. -/
def resolveWindow (windowMs : Option ℤ) (dflt : ℤ) : ℤ :=
  match windowMs with
  | none => dflt
  | some w => if w = 0 then dflt else w

instance {ε α : Type} [DecidableEq ε] [DecidableEq α] : DecidableEq (Except ε α) := fun x y =>
  match x, y with
  | Except.error a, Except.error b =>
    if h : a = b then Decidable.isTrue (h ▸ rfl)
    else Decidable.isFalse (fun hh => h (Except.error.inj hh))
  | Except.ok a, Except.ok b =>
    if h : a = b then Decidable.isTrue (h ▸ rfl)
    else Decidable.isFalse (fun hh => h (Except.ok.inj hh))
  | Except.error _, Except.ok _ => Decidable.isFalse (fun hh => Except.noConfusion hh)
  | Except.ok _, Except.error _ => Decidable.isFalse (fun hh => Except.noConfusion hh)

/-- The failure kinds thrown by the aggregation methods. -/
inductive AggError where
  | noPriceData : AggError
  | noVolumeData : AggError
  | insufficientData : AggError
  | allOutliers : AggError
  | zeroVolume : AggError
  | zeroWeight : AggError
deriving DecidableEq

/-- The numeric core of a VWAP result (`timeWindow`, `timestamp`,
`confidence` and the min/max metadata are display fields; the confidence
score is modeled separately by `calculateConfidence`). -/
structure VWAPResult where
  vwap : ℚ
  totalVolume : ℚ
  dataPoints : ℕ
  outliers : ℕ
  sources : List String
deriving DecidableEq

/-- The numeric core of a TWAP result. -/
structure TWAPResult where
  twap : ℚ
  dataPoints : ℕ
  outliers : ℕ
  sources : List String
deriving DecidableEq

/-- The in-window, volume-floored selection made by `calculateVWAP`
(`data.timestamp >= cutoffTime && data.volume && data.volume.gte(minVolume)`;
the middle conjunct is vacuous, a `Decimal` object being always truthy). -/
def vwapRelevant (cfg : Config) (now : ℤ) (st : ServiceState) (token : String)
    (w : ℤ) : List VolEntry :=
  (st.volumeHistory token).filter
    (fun d => decide (now - w ≤ d.timestamp ∧ cfg.minVolume ≤ d.volume))

/-- The outlier-filtered data `calculateVWAP` averages over. -/
def vwapClean (cfg : Config) (now : ℤ) (st : ServiceState) (token : String)
    (w : ℤ) : List VolEntry :=
  removeOutliers cfg (fun d => d.price) (vwapRelevant cfg now st token w)

/-- Embeds `calculateVWAP(token, windowMs)`. -/
def calculateVWAP (cfg : Config) (now : ℤ) (st : ServiceState) (token : String)
    (windowMs : Option ℤ) : Except AggError VWAPResult :=
  if st.volumeHistory token = [] then Except.error AggError.noVolumeData
  else if (vwapRelevant cfg now st token (resolveWindow windowMs cfg.vwapWindow)).length <
      cfg.minDataPoints then Except.error AggError.insufficientData
  else if vwapClean cfg now st token (resolveWindow windowMs cfg.vwapWindow) = [] then
    Except.error AggError.allOutliers
  else if ((vwapClean cfg now st token (resolveWindow windowMs cfg.vwapWindow)).map
      (fun d => d.volume)).sum = 0 then Except.error AggError.zeroVolume
  else
    Except.ok
      { vwap := ((vwapClean cfg now st token (resolveWindow windowMs cfg.vwapWindow)).map
            (fun d => d.price * d.volume)).sum /
          ((vwapClean cfg now st token (resolveWindow windowMs cfg.vwapWindow)).map
            (fun d => d.volume)).sum
        totalVolume := ((vwapClean cfg now st token (resolveWindow windowMs cfg.vwapWindow)).map
          (fun d => d.volume)).sum
        dataPoints := (vwapClean cfg now st token (resolveWindow windowMs cfg.vwapWindow)).length
        outliers := (vwapRelevant cfg now st token (resolveWindow windowMs cfg.vwapWindow)).length -
          (vwapClean cfg now st token (resolveWindow windowMs cfg.vwapWindow)).length
        sources := dedupFirst ((vwapClean cfg now st token
          (resolveWindow windowMs cfg.vwapWindow)).map (fun d => d.source)) }

/-- The in-window selection made by `calculateTWAP`, sorted ascending by
timestamp (JavaScript `sort` is stable; `insertionSort` with `≤` is the
same stable ascending sort). -/
def twapRelevant (now : ℤ) (st : ServiceState) (token : String) (w : ℤ) : List Obs :=
  ((st.priceHistory token).filter (fun d => decide (now - w ≤ d.timestamp))).insertionSort
    (fun a b => a.timestamp ≤ b.timestamp)

/-- The outlier-filtered data `calculateTWAP` averages over. -/
def twapClean (cfg : Config) (now : ℤ) (st : ServiceState) (token : String)
    (w : ℤ) : List Obs :=
  removeOutliers cfg (fun o => o.price) (twapRelevant now st token w)

/-- The accumulation loop of `calculateTWAP`: each observation weighs
`(next timestamp − its timestamp) · source weight`, the last one
`(now − its timestamp) · source weight`; returns
(`weightedSum`, `totalWeight`). -/
def twapSums (now : ℤ) : List Obs → ℚ × ℚ
  | [] => (0, 0)
  | [a] =>
    let fw := ((now - a.timestamp : ℤ) : ℚ) * a.weight
    (a.price * fw, fw)
  | a :: b :: rest =>
    let fw := ((b.timestamp - a.timestamp : ℤ) : ℚ) * a.weight
    let s := twapSums now (b :: rest)
    (a.price * fw + s.1, fw + s.2)

/-- Embeds `calculateTWAP(token, windowMs)`. -/
def calculateTWAP (cfg : Config) (now : ℤ) (st : ServiceState) (token : String)
    (windowMs : Option ℤ) : Except AggError TWAPResult :=
  if st.priceHistory token = [] then Except.error AggError.noPriceData
  else if (twapRelevant now st token (resolveWindow windowMs cfg.twapWindow)).length <
      cfg.minDataPoints then Except.error AggError.insufficientData
  else if twapClean cfg now st token (resolveWindow windowMs cfg.twapWindow) = [] then
    Except.error AggError.allOutliers
  else if (twapSums now (twapClean cfg now st token (resolveWindow windowMs cfg.twapWindow))).2 = 0
    then Except.error AggError.zeroWeight
  else
    Except.ok
      { twap := (twapSums now (twapClean cfg now st token (resolveWindow windowMs cfg.twapWindow))).1 /
          (twapSums now (twapClean cfg now st token (resolveWindow windowMs cfg.twapWindow))).2
        dataPoints := (twapClean cfg now st token (resolveWindow windowMs cfg.twapWindow)).length
        outliers := (twapRelevant now st token (resolveWindow windowMs cfg.twapWindow)).length -
          (twapClean cfg now st token (resolveWindow windowMs cfg.twapWindow)).length
        sources := dedupFirst ((twapClean cfg now st token
          (resolveWindow windowMs cfg.twapWindow)).map (fun d => d.source)) }

/-- Embeds `calculateStandardDeviation(values)`: 0 below two values, otherwise the
square root of the population variance. -/
noncomputable def calculateStandardDeviation (xs : List ℚ) : ℝ :=
  if xs.length < 2 then 0 else Real.sqrt ((variance xs : ℚ) : ℝ)

/-- Embeds `calculateConfidence(data)`: the clamped weighted sum of the
data-points factor `min(n/10, 1)`, the source-diversity factor
`min(sources/3, 1)`, the consistency factor `max(0, 1 − σ/μ)` (0 when the
mean price is not positive), and the mean source weight. -/
noncomputable def calculateConfidence (data : List Obs) : ℝ :=
  if data.length = 0 then 0
  else
    max 0 (min 1
      (min ((data.length : ℝ) / 10) 1 * (3/10) +
        min (((dedupFirst (data.map (fun d => d.source))).length : ℝ) / 3) 1 * (3/10) +
        (if 0 < ((mean (data.map (fun d => d.price)) : ℚ) : ℝ) then
          max 0 (1 - calculateStandardDeviation (data.map (fun d => d.price)) /
            ((mean (data.map (fun d => d.price)) : ℚ) : ℝ))
        else 0) * (3/10) +
        ((mean (data.map (fun d => d.weight)) : ℚ) : ℝ) * (1/10)))

/-! ## Helper lemmas -/

/-- The volume-history entry (if any) that `addPriceData` pushes for a
normalized observation. -/
def volPush (nd : Obs) : List VolEntry :=
  match nd.volume with
  | some v => [{ volume := v, price := nd.price, timestamp := nd.timestamp, source := nd.source }]
  | none => []

lemma addPriceData_priceHistory (cfg : Config) (now : ℤ) (st : ServiceState)
    (token t : String) (pd : RawPriceData) (nd : Obs)
    (hn : normalizePriceData now pd = some nd) :
    (addPriceData cfg now st token pd).priceHistory t =
      if t = token then
        cleanupList cfg.maxAge cfg.maxHistorySize now (fun o => o.timestamp)
          (st.priceHistory token ++ [nd])
      else st.priceHistory t := by
  by_cases h : t = token <;> simp [addPriceData, hn, cleanupOldData, h]

lemma addPriceData_volumeHistory (cfg : Config) (now : ℤ) (st : ServiceState)
    (token t : String) (pd : RawPriceData) (nd : Obs)
    (hn : normalizePriceData now pd = some nd) :
    (addPriceData cfg now st token pd).volumeHistory t =
      if t = token then
        cleanupList cfg.maxAge cfg.maxHistorySize now (fun e => e.timestamp)
          (st.volumeHistory token ++ volPush nd)
      else st.volumeHistory t := by
  by_cases h : t = token <;>
    cases hv : nd.volume <;>
      simp [addPriceData, hn, cleanupOldData, volPush, h, hv]

lemma cleanupList_length (A : ℤ) (M : ℕ) (now : ℤ) (f : α → ℤ) (l : List α) :
    (cleanupList A M now f l).length ≤ M := by
  unfold cleanupList
  split
  case isTrue h => simp only [List.length_drop]; omega
  case isFalse h => omega

lemma cleanupList_suffix (A : ℤ) (M : ℕ) (now : ℤ) (f : α → ℤ) (l : List α) :
    cleanupList A M now f l <:+ l.filter (fun d => decide (now - f d ≤ A)) := by
  unfold cleanupList
  split
  case isTrue h => exact List.drop_suffix _ _
  case isFalse h => exact List.suffix_refl _

lemma cleanupList_mem_age {A : ℤ} {M : ℕ} {now : ℤ} {f : α → ℤ} {l : List α} {x : α}
    (h : x ∈ cleanupList A M now f l) : now - f x ≤ A := by
  have hx := (cleanupList_suffix A M now f l).subset h
  exact of_decide_eq_true (List.mem_filter.mp hx).2

lemma cleanupList_mem {A : ℤ} {M : ℕ} {now : ℤ} {f : α → ℤ} {l : List α} {x : α}
    (h : x ∈ cleanupList A M now f l) : x ∈ l := by
  have hx := (cleanupList_suffix A M now f l).subset h
  exact List.mem_of_mem_filter hx

lemma getLast?_drop_of_lt : ∀ (n : ℕ) (l : List α), n < l.length →
    (l.drop n).getLast? = l.getLast? := by
  intro n
  induction n with
  | zero => intro l _; rfl
  | succ n ih =>
    intro l hl
    match l with
    | [] => simp at hl
    | a :: t =>
      match t with
      | [] =>
        simp only [List.length_cons, List.length_nil] at hl
        omega
      | b :: t' =>
        rw [List.drop_succ_cons, List.getLast?_cons_cons]
        apply ih (b :: t')
        simp only [List.length_cons] at hl ⊢
        omega

lemma cleanupList_getLast (A : ℤ) (M : ℕ) (now : ℤ) (f : α → ℤ) (l : List α) (O : α)
    (hage : now - f O ≤ A) (hM : 1 ≤ M) :
    (cleanupList A M now f (l ++ [O])).getLast? = some O := by
  have hd : decide (now - f O ≤ A) = true := decide_eq_true hage
  have hfil : (l ++ [O]).filter (fun d => decide (now - f d ≤ A)) =
      l.filter (fun d => decide (now - f d ≤ A)) ++ [O] := by
    simp [List.filter_append]
    omega
  unfold cleanupList
  rw [hfil]
  split
  case isTrue h =>
    have hlt : (l.filter (fun d => decide (now - f d ≤ A)) ++ [O]).length - M <
        (l.filter (fun d => decide (now - f d ≤ A)) ++ [O]).length := by
      simp only [List.length_append, List.length_cons, List.length_nil]
      omega
    rw [getLast?_drop_of_lt _ _ hlt]
    exact List.getLast?_concat _
  case isFalse h => exact List.getLast?_concat _

/-! ## TWAP: the specification-side formula -/

/-- The spec's time weights: `tᵢ₊₁ − tᵢ` for every observation but the
last, `now − tₗₐₛₜ` for the last. -/
def timeWeightsSpec (now : ℤ) : List Obs → List ℚ
  | [] => []
  | [a] => [((now - a.timestamp : ℤ) : ℚ)]
  | a :: b :: rest => ((b.timestamp - a.timestamp : ℤ) : ℚ) :: timeWeightsSpec now (b :: rest)

/-- The spec's combined weights: time weight times source weight,
pointwise. -/
def combinedWeightsSpec (now : ℤ) (l : List Obs) : List ℚ :=
  List.zipWith (fun tw w => tw * w) (timeWeightsSpec now l) (l.map (fun o => o.weight))

/-- The spec's TWAP numerator `Σ (priceᵢ · combinedWeightᵢ)`. -/
def twapSpecNum (now : ℤ) (l : List Obs) : ℚ :=
  (List.zipWith (fun (o : Obs) cw => o.price * cw) l (combinedWeightsSpec now l)).sum

/-- The spec's TWAP denominator `Σ combinedWeightᵢ`. -/
def twapSpecDen (now : ℤ) (l : List Obs) : ℚ :=
  (combinedWeightsSpec now l).sum

lemma twapSums_eq_spec (now : ℤ) : ∀ l : List Obs,
    twapSums now l = (twapSpecNum now l, twapSpecDen now l)
  | [] => by
    simp [twapSums, twapSpecNum, twapSpecDen, combinedWeightsSpec, timeWeightsSpec]
  | [a] => by
    simp [twapSums, twapSpecNum, twapSpecDen, combinedWeightsSpec, timeWeightsSpec]
  | a :: b :: rest => by
    have ih := twapSums_eq_spec now (b :: rest)
    simp only [twapSums, twapSpecNum, twapSpecDen, combinedWeightsSpec, timeWeightsSpec,
      List.map_cons, List.zipWith_cons_cons, List.sum_cons, ih]

/-- The timestamp the accumulation loop pairs with the head: the next
observation's, or `now` for the last. -/
def headTimestamp (now : ℤ) : List Obs → ℤ
  | [] => now
  | o :: _ => o.timestamp

lemma twapSums_cons (now : ℤ) (c : Obs) (l : List Obs) :
    twapSums now (c :: l) =
      (c.price * (((headTimestamp now l - c.timestamp : ℤ) : ℚ) * c.weight) + (twapSums now l).1,
        ((headTimestamp now l - c.timestamp : ℤ) : ℚ) * c.weight + (twapSums now l).2) := by
  cases l with
  | nil => simp [twapSums, headTimestamp]
  | cons b rest => simp [twapSums, headTimestamp]

lemma headTimestamp_append_dup (now : ℤ) {a b : Obs} (h : a.timestamp = b.timestamp)
    (l₁ l₂ : List Obs) :
    headTimestamp now (l₁ ++ a :: b :: l₂) = headTimestamp now (l₁ ++ b :: l₂) := by
  cases l₁ <;> simp [headTimestamp, h]

lemma twapSums_dup (now : ℤ) {a b : Obs} (h : a.timestamp = b.timestamp) :
    ∀ (l₁ l₂ : List Obs),
      twapSums now (l₁ ++ a :: b :: l₂) = twapSums now (l₁ ++ b :: l₂)
  | [], l₂ => by
    rw [List.nil_append, List.nil_append, twapSums_cons]
    have : ((b.timestamp - a.timestamp : ℤ) : ℚ) = 0 := by
      rw [h]; simp
    simp [twapSums_cons, headTimestamp, this]
  | c :: l₁, l₂ => by
    rw [List.cons_append, List.cons_append, twapSums_cons, twapSums_cons,
      headTimestamp_append_dup now h l₁ l₂, twapSums_dup now h l₁ l₂]

lemma twapSums_all_now (now : ℤ) : ∀ l : List Obs,
    (∀ o ∈ l, o.timestamp = now) → twapSums now l = (0, 0)
  | [] => by intro _; rfl
  | [a] => by
    intro h
    have ha := h a (by simp)
    simp [twapSums, ha]
  | a :: b :: rest => by
    intro h
    have ha := h a (by simp)
    have hb := h b (by simp)
    have ih := twapSums_all_now now (b :: rest) (fun o ho => h o (List.mem_cons_of_mem a ho))
    simp [twapSums, ih, ha, hb]

/-! ## Outlier filters: structural lemmas -/

lemma zip_filter_map (f : α → ℚ) (q : ℚ → Bool) : ∀ l : List α,
    ((l.zip (l.map f)).filter (fun p => q p.2)).map Prod.fst = l.filter (fun a => q (f a))
  | [] => rfl
  | a :: l => by
    simp only [List.map_cons, List.zip_cons_cons, List.filter_cons]
    cases hq : q (f a) <;> simp [zip_filter_map f q l, hq]

lemma removeOutliersZScore_eq_filter (t : ℚ) (f : α → ℚ) (l : List α)
    (h3 : ¬ (l.map f).length < 3) (hv : variance (l.map f) ≠ 0) :
    removeOutliersZScore t l (l.map f) =
      l.filter (fun a =>
        decide ((f a - mean (l.map f)) ^ 2 ≤ t ^ 2 * variance (l.map f))) := by
  unfold removeOutliersZScore
  rw [if_neg h3, if_neg hv]
  exact zip_filter_map f
    (fun x => decide ((x - mean (l.map f)) ^ 2 ≤ t ^ 2 * variance (l.map f))) l

lemma removeOutliersZScore_sublist (t : ℚ) (f : α → ℚ) (l : List α) :
    List.Sublist (removeOutliersZScore t l (l.map f)) l := by
  unfold removeOutliersZScore
  split
  case isTrue h => exact List.Sublist.refl l
  case isFalse h =>
    split
    case isTrue h2 => exact List.Sublist.refl l
    case isFalse h2 =>
      rw [zip_filter_map f
        (fun x => decide ((x - mean (l.map f)) ^ 2 ≤ t ^ 2 * variance (l.map f))) l]
      exact List.filter_sublist l

lemma removeOutliersIQR_sublist (m : ℚ) (f : α → ℚ) (l : List α) :
    List.Sublist (removeOutliersIQR m f l) l := by
  unfold removeOutliersIQR
  split
  case isTrue h => exact List.Sublist.refl l
  case isFalse h => exact List.filter_sublist l

lemma removeOutliers_sublist (cfg : Config) (f : α → ℚ) (l : List α) :
    List.Sublist (removeOutliers cfg f l) l := by
  unfold removeOutliers
  split
  case isTrue h => exact List.Sublist.refl l
  case isFalse h =>
    exact (removeOutliersIQR_sublist _ _ _).trans (removeOutliersZScore_sublist _ _ _)

/-- The simple-statistics quantile at p = 1/4 of a five-element sorted
list: index ⌈5/4⌉ − 1 = 1. -/
lemma quantileSorted_five_q1 (a b c d e : ℚ) : quantileSorted [a,b,c,d,e] (1/4) = b := by
  have hceil : (⌈(5/4 : ℚ)⌉ : ℤ) = 2 := by norm_num [Int.ceil_eq_iff]
  simp only [quantileSorted, List.length_cons, List.length_nil]
  norm_num [hceil]
  rfl

/-- The simple-statistics quantile at p = 3/4 of a five-element sorted
list: index ⌈15/4⌉ − 1 = 3. -/
lemma quantileSorted_five_q3 (a b c d e : ℚ) : quantileSorted [a,b,c,d,e] (3/4) = d := by
  have hceil : (⌈(15/4 : ℚ)⌉ : ℤ) = 4 := by norm_num [Int.ceil_eq_iff]
  simp only [quantileSorted, List.length_cons, List.length_nil]
  norm_num [hceil]
  rfl

/-- The simple-statistics quantile at p = 1/4 of a six-element sorted
list: index ⌈3/2⌉ − 1 = 1. -/
lemma quantileSorted_six_q1 (a b c d e f : ℚ) : quantileSorted [a,b,c,d,e,f] (1/4) = b := by
  have hceil : (⌈(3/2 : ℚ)⌉ : ℤ) = 2 := by norm_num [Int.ceil_eq_iff]
  simp only [quantileSorted, List.length_cons, List.length_nil]
  norm_num [hceil]
  rfl

/-- The simple-statistics quantile at p = 3/4 of a six-element sorted
list: index ⌈9/2⌉ − 1 = 4. -/
lemma quantileSorted_six_q3 (a b c d e f : ℚ) : quantileSorted [a,b,c,d,e,f] (3/4) = e := by
  have hceil : (⌈(9/2 : ℚ)⌉ : ℤ) = 5 := by norm_num [Int.ceil_eq_iff]
  simp only [quantileSorted, List.length_cons, List.length_nil]
  norm_num [hceil]
  rfl

/-! ## Concrete scenario data -/

/-- A common evaluation instant for the concrete scenarios. -/
def nowC : ℤ := 1000000

/-- A raw price/volume tick with the current timestamp (the scenario of
spec test 1). -/
def rawPV (p v : ℚ) (s : String) : RawPriceData :=
  { price := RawNum.num p, volume := RawNum.num v, timestamp := none, source := some s }

/-- A raw volume-less tick at an explicit timestamp. -/
def rawPT (p : ℚ) (ts : ℤ) (s : String) : RawPriceData :=
  { price := RawNum.num p, volume := RawNum.absent, timestamp := some ts, source := some s }

/-- The store after the five inserts of the basic-VWAP scenario:
(177.50, v=1000, okx), (177.45, v=1500, binance), (177.55, v=800,
coinbase), (177.48, v=1200, kraken), (177.52, v=900, huobi). -/
def stC1 : ServiceState :=
  addPriceData defaultConfig nowC
    (addPriceData defaultConfig nowC
      (addPriceData defaultConfig nowC
        (addPriceData defaultConfig nowC
          (addPriceData defaultConfig nowC initialState ("SOL/USDC")
            (rawPV (355/2) 1000 ("okx")))
          ("SOL/USDC") (rawPV (3549/20) 1500 ("binance")))
        ("SOL/USDC") (rawPV (3551/20) 800 ("coinbase")))
      ("SOL/USDC") (rawPV (4437/25) 1200 ("kraken")))
    ("SOL/USDC") (rawPV (4438/25) 900 ("huobi"))

/-- The VWAP result the code produces on `stC1`. -/
def vwapResultC1 : VWAPResult :=
  { vwap := 958459/5400
    totalVolume := 5400
    dataPoints := 5
    outliers := 0
    sources := [("okx"), ("binance"), ("coinbase"), ("kraken"), ("huobi")] }


/-- A state with constant histories, used to evaluate the calculators on
explicit lists. -/
def constState (pl : List Obs) (vl : List VolEntry) : ServiceState :=
  { priceHistory := fun _ => pl
    volumeHistory := fun _ => vl
    stats := initialState.stats }

/-- The function `calculateVWAP` reads the state only through the token's volume
history. -/
lemma calculateVWAP_congr (cfg : Config) (now : ℤ) (st st2 : ServiceState) (token : String)
    (w : Option ℤ) (h : st.volumeHistory token = st2.volumeHistory token) :
    calculateVWAP cfg now st token w = calculateVWAP cfg now st2 token w := by
  simp only [calculateVWAP, vwapClean, vwapRelevant, h]

/-- The function `calculateTWAP` reads the state only through the token's price
history. -/
lemma calculateTWAP_congr (cfg : Config) (now : ℤ) (st st2 : ServiceState) (token : String)
    (w : Option ℤ) (h : st.priceHistory token = st2.priceHistory token) :
    calculateTWAP cfg now st token w = calculateTWAP cfg now st2 token w := by
  simp only [calculateTWAP, twapClean, twapRelevant, h]

/-- The function `twapClean` reads the state only through the token's price history. -/
lemma twapClean_congr (cfg : Config) (now : ℤ) (st st2 : ServiceState) (token : String)
    (w : ℤ) (h : st.priceHistory token = st2.priceHistory token) :
    twapClean cfg now st token w = twapClean cfg now st2 token w := by
  simp only [twapClean, twapRelevant, h]

/-- The volume history of "SOL/USDC" after the five C1 inserts. -/
def volListC1 : List VolEntry :=
  [ { volume := 1000, price := 355/2, timestamp := 1000000, source := ("okx") }
  , { volume := 1500, price := 3549/20, timestamp := 1000000, source := ("binance") }
  , { volume := 800, price := 3551/20, timestamp := 1000000, source := ("coinbase") }
  , { volume := 1200, price := 4437/25, timestamp := 1000000, source := ("kraken") }
  , { volume := 900, price := 4438/25, timestamp := 1000000, source := ("huobi") } ]

set_option maxRecDepth 10000 in
lemma stC1_volumeHistory : stC1.volumeHistory ("SOL/USDC") = volListC1 := by
  simp [stC1, addPriceData, normalizePriceData, decodePrice, decodeVolume,
    decodeTimestamp, decodeSource, lookupWeight, sourceWeights, cleanupOldData,
    cleanupList, initialState, rawPV, nowC, defaultConfig, volListC1, List.filter]

set_option maxRecDepth 10000 in
lemma vwapC1_eval :
    calculateVWAP defaultConfig nowC stC1 ("SOL/USDC") none = Except.ok vwapResultC1 := by
  rw [calculateVWAP_congr defaultConfig nowC stC1 (constState [] volListC1) ("SOL/USDC") none
    (by rw [stC1_volumeHistory]; rfl)]
  simp [calculateVWAP, vwapRelevant, vwapClean, removeOutliers, removeOutliersZScore,
    removeOutliersIQR, iqrBounds, mean, variance, resolveWindow,
    constState, volListC1, defaultConfig, nowC, vwapResultC1,
    List.filter, List.insertionSort, List.orderedInsert]
  norm_num [quantileSorted_five_q1, quantileSorted_five_q3]
  simp [dedupFirst]

/-! ## Claim C1 -/

/-- C1, counterexample: on the five volume-bearing observations of the
claim, `calculateVWAP` succeeds with 5 inputs, 0 outliers and total volume
5400, but its price is 958459/5400 ≈ 177.49241, which is NOT within
±0.0002 of the claimed 177.4826 (the true value exceeds the claimed bound
by roughly 0.0096). -/
theorem C1_counterexample :
    calculateVWAP defaultConfig nowC stC1 ("SOL/USDC") none = Except.ok vwapResultC1 ∧
    ¬ |vwapResultC1.vwap - 1774826/10000| ≤ 2/10000 := by
  refine ⟨vwapC1_eval, ?_⟩
  norm_num [vwapResultC1]
  rw [abs_of_pos (by norm_num)]
  norm_num

/-- C1, amended: on the five volume-bearing observations of the claim,
`calculateVWAP` succeeds and returns a price equal to 177.4924 within
±0.0002 (exactly 958459/5400), inputs used = 5, outliers = 0, and total
volume = 5400. -/
theorem C1_theorem :
    calculateVWAP defaultConfig nowC stC1 ("SOL/USDC") none = Except.ok vwapResultC1 ∧
    |vwapResultC1.vwap - 1774924/10000| ≤ 2/10000 ∧
    vwapResultC1.dataPoints = 5 ∧
    vwapResultC1.outliers = 0 ∧
    vwapResultC1.totalVolume = 5400 := by
  refine ⟨vwapC1_eval, ?_, rfl, rfl, rfl⟩
  norm_num [vwapResultC1]
  rw [abs_of_pos (by norm_num)]
  norm_num

/-! ## Claim C3 -/

/-- The store after five inserts for "SOL/USDC", all with price 177.50 and
the same strictly past timestamp 940000 (one minute before `nowC`), from
five distinct sources, without volume. -/
def stC3 : ServiceState :=
  addPriceData defaultConfig nowC
    (addPriceData defaultConfig nowC
      (addPriceData defaultConfig nowC
        (addPriceData defaultConfig nowC
          (addPriceData defaultConfig nowC initialState ("SOL/USDC")
            (rawPT (355/2) 940000 ("okx")))
          ("SOL/USDC") (rawPT (355/2) 940000 ("binance")))
        ("SOL/USDC") (rawPT (355/2) 940000 ("coinbase")))
      ("SOL/USDC") (rawPT (355/2) 940000 ("kraken")))
    ("SOL/USDC") (rawPT (355/2) 940000 ("huobi"))

/-- The price history of "SOL/USDC" in `stC3`. -/
def priceListC3 : List Obs :=
  [ { price := 355/2, volume := none, timestamp := 940000, source := ("okx"), weight := 1 }
  , { price := 355/2, volume := none, timestamp := 940000, source := ("binance"), weight := 1 }
  , { price := 355/2, volume := none, timestamp := 940000, source := ("coinbase"), weight := 9/10 }
  , { price := 355/2, volume := none, timestamp := 940000, source := ("kraken"), weight := 1/2 }
  , { price := 355/2, volume := none, timestamp := 940000, source := ("huobi"), weight := 1/2 } ]

/-- The TWAP result the code produces on `stC3`: the last observation's
weight `(now − t)·w = 60000·0.5` is positive, so TWAP succeeds and returns
the price. -/
def twapResultC3 : TWAPResult :=
  { twap := 355/2
    dataPoints := 5
    outliers := 0
    sources := [("okx"), ("binance"), ("coinbase"), ("kraken"), ("huobi")] }

set_option maxRecDepth 10000 in
lemma stC3_priceHistory : stC3.priceHistory ("SOL/USDC") = priceListC3 := by
  simp [stC3, addPriceData, normalizePriceData, decodePrice, decodeVolume,
    decodeTimestamp, decodeSource, lookupWeight, sourceWeights, cleanupOldData,
    cleanupList, initialState, rawPT, nowC, defaultConfig, priceListC3, List.filter]

set_option maxRecDepth 10000 in
lemma twapC3_eval :
    calculateTWAP defaultConfig nowC stC3 ("SOL/USDC") none = Except.ok twapResultC3 := by
  rw [calculateTWAP_congr defaultConfig nowC stC3 (constState priceListC3 []) ("SOL/USDC") none
    (by rw [stC3_priceHistory]; rfl)]
  simp [calculateTWAP, twapRelevant, twapClean, removeOutliers, removeOutliersZScore,
    removeOutliersIQR, iqrBounds, mean, variance, resolveWindow, twapSums,
    constState, priceListC3, defaultConfig, nowC, twapResultC3,
    List.filter, List.insertionSort, List.orderedInsert]
  norm_num [quantileSorted_five_q1, quantileSorted_five_q3]
  norm_num [twapSums]
  simp [dedupFirst]

/-- C3, counterexample: five observations sharing one strictly past
timestamp from distinct sources do NOT make `calculateTWAP` fail with
`ZeroWeight`; the call succeeds (the TWAP degenerates to the last
observation's price, since only its weight `(now − t)·w` is nonzero). -/
theorem C3_counterexample :
    calculateTWAP defaultConfig nowC stC3 ("SOL/USDC") none = Except.ok twapResultC3 ∧
    calculateTWAP defaultConfig nowC stC3 ("SOL/USDC") none ≠
      Except.error AggError.zeroWeight := by
  refine ⟨twapC3_eval, ?_⟩
  rw [twapC3_eval]
  simp

/-- C3, amended: for every pair whose in-window snapshot after outlier
filtering consists of at least `minDataPoints` (≥ 1) observations that all
share one single timestamp equal to the evaluation instant `now`,
`calculateTWAP` fails with the `ZeroWeight` error, because every combined
weight — including the last observation's `(now − tₗₐₛₜ)·w` — is zero.
(With a strictly past shared timestamp the call succeeds instead; see the
counterexample.) -/
theorem C3_theorem (cfg : Config) (now : ℤ) (st : ServiceState) (token : String)
    (windowMs : Option ℤ)
    (hts : ∀ o ∈ twapClean cfg now st token (resolveWindow windowMs cfg.twapWindow),
      o.timestamp = now)
    (hlen : cfg.minDataPoints ≤
      (twapClean cfg now st token (resolveWindow windowMs cfg.twapWindow)).length)
    (hmin : 1 ≤ cfg.minDataPoints) :
    calculateTWAP cfg now st token windowMs = Except.error AggError.zeroWeight := by
  have hclen : 1 ≤ (twapClean cfg now st token (resolveWindow windowMs cfg.twapWindow)).length :=
    le_trans hmin hlen
  have hrellen : (twapClean cfg now st token (resolveWindow windowMs cfg.twapWindow)).length ≤
      (twapRelevant now st token (resolveWindow windowMs cfg.twapWindow)).length := by
    unfold twapClean
    exact (removeOutliers_sublist cfg (fun o => o.price)
      (twapRelevant now st token (resolveWindow windowMs cfg.twapWindow))).length_le
  have hhist : ¬ st.priceHistory token = [] := by
    intro hnil
    have hrel : twapRelevant now st token (resolveWindow windowMs cfg.twapWindow) = [] := by
      simp [twapRelevant, hnil]
    rw [hrel] at hrellen
    simp only [List.length_nil, Nat.le_zero] at hrellen
    omega
  have hz : twapSums now (twapClean cfg now st token (resolveWindow windowMs cfg.twapWindow)) =
      (0, 0) := twapSums_all_now now _ hts
  unfold calculateTWAP
  rw [if_neg hhist, if_neg (by omega :
    ¬ (twapRelevant now st token (resolveWindow windowMs cfg.twapWindow)).length <
      cfg.minDataPoints)]
  rw [if_neg (by
    intro hnil
    rw [hnil] at hclen
    simp at hclen)]
  rw [hz]
  rfl

/-- The C3 witness store: the five observations share the timestamp
`nowC` itself, so every combined weight is zero. -/
def stC3w : ServiceState :=
  addPriceData defaultConfig nowC
    (addPriceData defaultConfig nowC
      (addPriceData defaultConfig nowC
        (addPriceData defaultConfig nowC
          (addPriceData defaultConfig nowC initialState ("SOL/USDC")
            (rawPT (355/2) 1000000 ("okx")))
          ("SOL/USDC") (rawPT (355/2) 1000000 ("binance")))
        ("SOL/USDC") (rawPT (355/2) 1000000 ("coinbase")))
      ("SOL/USDC") (rawPT (355/2) 1000000 ("kraken")))
    ("SOL/USDC") (rawPT (355/2) 1000000 ("huobi"))

/-- The price history of "SOL/USDC" in `stC3w`. -/
def priceListC3w : List Obs :=
  [ { price := 355/2, volume := none, timestamp := 1000000, source := ("okx"), weight := 1 }
  , { price := 355/2, volume := none, timestamp := 1000000, source := ("binance"), weight := 1 }
  , { price := 355/2, volume := none, timestamp := 1000000, source := ("coinbase"), weight := 9/10 }
  , { price := 355/2, volume := none, timestamp := 1000000, source := ("kraken"), weight := 1/2 }
  , { price := 355/2, volume := none, timestamp := 1000000, source := ("huobi"), weight := 1/2 } ]

set_option maxRecDepth 10000 in
lemma stC3w_priceHistory : stC3w.priceHistory ("SOL/USDC") = priceListC3w := by
  simp [stC3w, addPriceData, normalizePriceData, decodePrice, decodeVolume,
    decodeTimestamp, decodeSource, lookupWeight, sourceWeights, cleanupOldData,
    cleanupList, initialState, rawPT, nowC, defaultConfig, priceListC3w, List.filter]

set_option maxRecDepth 10000 in
lemma twapCleanC3w :
    twapClean defaultConfig nowC stC3w ("SOL/USDC")
      (resolveWindow none defaultConfig.twapWindow) = priceListC3w := by
  rw [twapClean_congr defaultConfig nowC stC3w (constState priceListC3w []) ("SOL/USDC") _
    (by rw [stC3w_priceHistory]; rfl)]
  simp [twapClean, twapRelevant, removeOutliers, removeOutliersZScore,
    removeOutliersIQR, iqrBounds, mean, variance, resolveWindow,
    constState, priceListC3w, defaultConfig, nowC,
    List.filter, List.insertionSort, List.orderedInsert]
  norm_num [quantileSorted_five_q1, quantileSorted_five_q3]

/-- Witness for C3 at the concrete zero-spread store: TWAP fails with
`ZeroWeight`. -/
theorem C3_witness :
    (twapClean defaultConfig nowC stC3w ("SOL/USDC")
      (resolveWindow none defaultConfig.twapWindow)).length = 5 ∧
    calculateTWAP defaultConfig nowC stC3w ("SOL/USDC") none =
      Except.error AggError.zeroWeight := by
  constructor
  · rw [twapCleanC3w]
    rfl
  · refine C3_theorem defaultConfig nowC stC3w ("SOL/USDC") none ?_ ?_ (by decide)
    · rw [twapCleanC3w]
      intro o ho
      fin_cases ho <;> rfl
    · rw [twapCleanC3w]
      decide

/-! ## Claim C4 -/

/-- C4 (confirmed): whenever `calculateTWAP` succeeds, the returned price
is exactly `Σ(priceᵢ·combinedWeightᵢ) / Σ(combinedWeightᵢ)` over the
outlier-filtered, timestamp-sorted snapshot, with
`combinedWeightᵢ = (tᵢ₊₁ − tᵢ)·sourceWeightᵢ` for every observation but
the last, whose weight is `(now − tₗₐₛₜ)·sourceWeightₗₐₛₜ`; moreover two
adjacent observations with equal timestamps give the earlier one a
combined weight of 0, and dropping it changes neither the numerator nor
the denominator. -/
theorem C4_theorem (cfg : Config) (now : ℤ) (st : ServiceState) (token : String)
    (windowMs : Option ℤ) (r : TWAPResult) (l₁ l₂ : List Obs) (a b : Obs)
    (hok : calculateTWAP cfg now st token windowMs = Except.ok r)
    (hts : a.timestamp = b.timestamp) :
    r.twap =
      twapSpecNum now (twapClean cfg now st token (resolveWindow windowMs cfg.twapWindow)) /
        twapSpecDen now (twapClean cfg now st token (resolveWindow windowMs cfg.twapWindow)) ∧
    twapSpecNum now (l₁ ++ a :: b :: l₂) = twapSpecNum now (l₁ ++ b :: l₂) ∧
    twapSpecDen now (l₁ ++ a :: b :: l₂) = twapSpecDen now (l₁ ++ b :: l₂) ∧
    combinedWeightsSpec now (a :: b :: l₂) = 0 :: combinedWeightsSpec now (b :: l₂) := by
  refine ⟨?_, ?_, ?_, ?_⟩
  · unfold calculateTWAP at hok
    split_ifs at hok
    have hr := Except.ok.inj hok
    rw [← hr]
    simp only [twapSums_eq_spec]
  · have h := twapSums_dup now hts l₁ l₂
    rw [twapSums_eq_spec, twapSums_eq_spec, Prod.mk.injEq] at h
    exact h.1
  · have h := twapSums_dup now hts l₁ l₂
    rw [twapSums_eq_spec, twapSums_eq_spec, Prod.mk.injEq] at h
    exact h.2
  · simp [combinedWeightsSpec, timeWeightsSpec, hts]

/-- The C4 witness store: three observations at distinct past timestamps
with equal prices. -/
def stC4 : ServiceState :=
  addPriceData defaultConfig nowC
    (addPriceData defaultConfig nowC
      (addPriceData defaultConfig nowC initialState ("SOL/USDC")
        (rawPT 100 900000 ("okx")))
      ("SOL/USDC") (rawPT 100 950000 ("binance")))
    ("SOL/USDC") (rawPT 100 990000 ("coinbase"))

/-- The price history of "SOL/USDC" in `stC4`. -/
def priceListC4 : List Obs :=
  [ { price := 100, volume := none, timestamp := 900000, source := ("okx"), weight := 1 }
  , { price := 100, volume := none, timestamp := 950000, source := ("binance"), weight := 1 }
  , { price := 100, volume := none, timestamp := 990000, source := ("coinbase"), weight := 9/10 } ]

/-- The TWAP result the code produces on `stC4`. -/
def twapResultC4 : TWAPResult :=
  { twap := 100
    dataPoints := 3
    outliers := 0
    sources := [("okx"), ("binance"), ("coinbase")] }

/-- A pair of observations sharing a timestamp, for the duplicate-weight
part of the C4 witness. -/
def obsDupA : Obs :=
  { price := 100, volume := none, timestamp := 5, source := ("okx"), weight := 1 }

/-- The later of the two equal-timestamp observations. -/
def obsDupB : Obs :=
  { price := 200, volume := none, timestamp := 5, source := ("binance"), weight := 1/2 }

set_option maxRecDepth 10000 in
lemma stC4_priceHistory : stC4.priceHistory ("SOL/USDC") = priceListC4 := by
  simp [stC4, addPriceData, normalizePriceData, decodePrice, decodeVolume,
    decodeTimestamp, decodeSource, lookupWeight, sourceWeights, cleanupOldData,
    cleanupList, initialState, rawPT, nowC, defaultConfig, priceListC4, List.filter]

set_option maxRecDepth 10000 in
lemma twapC4_eval :
    calculateTWAP defaultConfig nowC stC4 ("SOL/USDC") none = Except.ok twapResultC4 := by
  rw [calculateTWAP_congr defaultConfig nowC stC4 (constState priceListC4 []) ("SOL/USDC") none
    (by rw [stC4_priceHistory]; rfl)]
  simp [calculateTWAP, twapRelevant, twapClean, removeOutliers, removeOutliersZScore,
    removeOutliersIQR, iqrBounds, mean, variance, resolveWindow, twapSums,
    constState, priceListC4, defaultConfig, nowC, twapResultC4,
    List.filter, List.insertionSort, List.orderedInsert]
  norm_num [twapSums]
  simp [dedupFirst]

/-- Witness for C4 at the concrete store `stC4` and the concrete
equal-timestamp pair `obsDupA`, `obsDupB`. -/
theorem C4_witness :
    calculateTWAP defaultConfig nowC stC4 ("SOL/USDC") none = Except.ok twapResultC4 ∧
    twapResultC4.twap =
      twapSpecNum nowC (twapClean defaultConfig nowC stC4 ("SOL/USDC")
          (resolveWindow none defaultConfig.twapWindow)) /
        twapSpecDen nowC (twapClean defaultConfig nowC stC4 ("SOL/USDC")
          (resolveWindow none defaultConfig.twapWindow)) ∧
    twapSpecNum nowC [obsDupA, obsDupB] = twapSpecNum nowC [obsDupB] ∧
    twapSpecDen nowC [obsDupA, obsDupB] = twapSpecDen nowC [obsDupB] ∧
    combinedWeightsSpec nowC [obsDupA, obsDupB] = 0 :: combinedWeightsSpec nowC [obsDupB] := by
  have h := C4_theorem defaultConfig nowC stC4 ("SOL/USDC") none twapResultC4
    [] [] obsDupA obsDupB twapC4_eval rfl
  exact ⟨twapC4_eval, h.1, h.2.1, h.2.2.1, h.2.2.2⟩

/-! ## Claim C8 -/

/-- C8 (confirmed): `addPriceData` is total — modeled as a total function —
and atomic: whenever `normalizePriceData` throws (returns `none`, e.g. for
an unparseable price), the state, including both histories and the
`totalPricesProcessed` and `lastUpdate` counters, is returned unchanged. -/
theorem C8_theorem (cfg : Config) (now : ℤ) (st : ServiceState) (token : String)
    (pd : RawPriceData) (h : normalizePriceData now pd = none) :
    addPriceData cfg now st token pd = st := by
  unfold addPriceData
  rw [h]

/-- A raw tick whose price cannot be parsed: `new Decimal` throws inside
`normalizePriceData`. -/
def pdBad : RawPriceData :=
  { price := RawNum.invalid, volume := RawNum.absent, timestamp := none, source := none }

/-- Witness for C8 at a concrete unparseable input. -/
theorem C8_witness :
    normalizePriceData nowC pdBad = none ∧
    addPriceData defaultConfig nowC initialState ("SOL/USDC") pdBad = initialState :=
  ⟨by decide, C8_theorem defaultConfig nowC initialState ("SOL/USDC") pdBad (by decide)⟩

/-! ## Claims C5 and C9: shared facts about one insert -/

/-- After a successful insert, the last element of the token's stored
price history is the inserted observation, provided it is itself within
`maxAge` of `now` and the capacity is at least one. -/
lemma addPriceData_getLast (cfg : Config) (now : ℤ) (st : ServiceState) (token : String)
    (pd : RawPriceData) (O : Obs)
    (hn : normalizePriceData now pd = some O)
    (hage : now - O.timestamp ≤ cfg.maxAge)
    (hM : 1 ≤ cfg.maxHistorySize) :
    ((addPriceData cfg now st token pd).priceHistory token).getLast? = some O := by
  rw [addPriceData_priceHistory cfg now st token token pd O hn, if_pos rfl]
  exact cleanupList_getLast _ _ _ _ _ _ hage hM

/-- A successful normalization determines the volume field from the raw
volume. -/
lemma normalize_volume (now : ℤ) (pd : RawPriceData) (O : Obs)
    (hn : normalizePriceData now pd = some O) : decodeVolume pd.volume = some O.volume := by
  unfold normalizePriceData at hn
  cases hp : decodePrice pd.price with
  | none =>
    rw [hp] at hn
    cases hv : decodeVolume pd.volume with
    | none => rw [hv] at hn; simp at hn
    | some v => rw [hv] at hn; simp at hn
  | some p =>
    rw [hp] at hn
    cases hv : decodeVolume pd.volume with
    | none => rw [hv] at hn; simp at hn
    | some v =>
      rw [hv] at hn
      simp only [Option.some.injEq] at hn
      subst hn
      rfl

/-- `decodeVolume` never produces a non-null zero volume: a zero raw
volume is falsy and becomes `null`. -/
lemma decodeVolume_ne_zero (r : RawNum) (v : ℚ) (h : decodeVolume r = some (some v)) :
    v ≠ 0 := by
  cases r with
  | absent => simp [decodeVolume] at h
  | invalid => simp [decodeVolume] at h
  | num q =>
    by_cases hq : q = 0
    · simp [decodeVolume, hq] at h
    · simp [decodeVolume, hq] at h
      exact h ▸ hq

/-! ## Claim C5 -/

/-- A raw tick whose explicit timestamp 50000 is older than
`now − maxAge = 100000` at evaluation time 400000. -/
def pdOld : RawPriceData :=
  { price := RawNum.num 100, volume := RawNum.absent, timestamp := some 50000,
    source := some ("okx") }

/-- C5, counterexample: inserting an observation whose timestamp is older
than `now − maxAge` purges the observation itself: normalization succeeds,
yet the stored history of the pair stays empty, so its most recent
observation is not the inserted one (there is none). -/
theorem C5_counterexample :
    (normalizePriceData 400000 pdOld).isSome = true ∧
    ((addPriceData defaultConfig 400000 initialState ("SOL/USDC") pdOld).priceHistory
      ("SOL/USDC")).getLast? = none := by
  constructor
  · simp [normalizePriceData, pdOld, decodePrice, decodeVolume]
  · simp [addPriceData, normalizePriceData, pdOld, decodePrice, decodeVolume,
      decodeTimestamp, decodeSource, lookupWeight, sourceWeights, cleanupOldData,
      cleanupList, initialState, defaultConfig, List.filter]

/-- C5, amended: for every pair P and observation O whose timestamp is
within `maxAge` of `now` (an older O is immediately purged by the insert's
cleanup — see the counterexample), and `maxHistorySize ≥ 1`: immediately
after `addPriceData(P, O)` the most recent (last) observation of P's
stored history is O, no stored observation of P is older than
`now − maxAge`, P's history holds at most `maxHistorySize` observations,
and the history is a suffix of the age-filtered sequence — the oldest
observations are evicted first. -/
theorem C5_theorem (cfg : Config) (now : ℤ) (st : ServiceState) (token : String)
    (pd : RawPriceData) (O e : Obs)
    (hn : normalizePriceData now pd = some O)
    (hage : now - O.timestamp ≤ cfg.maxAge)
    (hM : 1 ≤ cfg.maxHistorySize) :
    ((addPriceData cfg now st token pd).priceHistory token).getLast? = some O ∧
    (e ∈ (addPriceData cfg now st token pd).priceHistory token →
      now - e.timestamp ≤ cfg.maxAge) ∧
    ((addPriceData cfg now st token pd).priceHistory token).length ≤ cfg.maxHistorySize ∧
    (addPriceData cfg now st token pd).priceHistory token <:+
      (st.priceHistory token ++ [O]).filter
        (fun o => decide (now - o.timestamp ≤ cfg.maxAge)) := by
  refine ⟨addPriceData_getLast cfg now st token pd O hn hage hM, ?_, ?_, ?_⟩
  · rw [addPriceData_priceHistory cfg now st token token pd O hn, if_pos rfl]
    exact fun he => cleanupList_mem_age he
  · rw [addPriceData_priceHistory cfg now st token token pd O hn, if_pos rfl]
    exact cleanupList_length _ _ _ _ _
  · rw [addPriceData_priceHistory cfg now st token token pd O hn, if_pos rfl]
    exact cleanupList_suffix _ _ _ _ _

/-- The C5 witness tick: timestamp 999000, one second before `nowC`. -/
def pdC5w : RawPriceData := rawPT 100 999000 ("okx")

/-- The normalized form of `pdC5w`. -/
def obsC5w : Obs :=
  { price := 100, volume := none, timestamp := 999000, source := ("okx"), weight := 1 }

/-- Witness for C5 at a concrete fresh-enough insert. -/
theorem C5_witness :
    ((addPriceData defaultConfig nowC initialState ("SOL/USDC") pdC5w).priceHistory
      ("SOL/USDC")).getLast? = some obsC5w ∧
    (obsC5w ∈ (addPriceData defaultConfig nowC initialState ("SOL/USDC") pdC5w).priceHistory
      ("SOL/USDC") → nowC - obsC5w.timestamp ≤ defaultConfig.maxAge) ∧
    ((addPriceData defaultConfig nowC initialState ("SOL/USDC") pdC5w).priceHistory
      ("SOL/USDC")).length ≤ defaultConfig.maxHistorySize ∧
    (addPriceData defaultConfig nowC initialState ("SOL/USDC") pdC5w).priceHistory
      ("SOL/USDC") <:+
      (initialState.priceHistory ("SOL/USDC") ++ [obsC5w]).filter
        (fun o => decide (nowC - o.timestamp ≤ defaultConfig.maxAge)) := by
  have hn : normalizePriceData nowC pdC5w = some obsC5w := by
    simp [normalizePriceData, pdC5w, rawPT, decodePrice, decodeVolume, decodeTimestamp,
      decodeSource, lookupWeight, sourceWeights, nowC, obsC5w]
  exact C5_theorem defaultConfig nowC initialState ("SOL/USDC") pdC5w obsC5w obsC5w hn
    (by decide) (by decide)

/-! ## Claim C9 -/

/-- C9 (confirmed): an observation inserted with a volume of exactly 0 or
with no volume is normalized to a null volume; it is never appended to the
volume sequence — the insert leaves the token's volume history equal to
the mere cleanup of the old one, so every remaining entry was already
there, and VWAP (which reads only the volume history) can never see it —
while the observation itself lands in the price history (as its most
recent element when it is within `maxAge` and the capacity is ≥ 1), where
TWAP and the weighted average read it. -/
theorem C9_theorem (cfg : Config) (now : ℤ) (st : ServiceState) (token : String)
    (pd : RawPriceData) (O : Obs) (e : VolEntry)
    (hvol : pd.volume = RawNum.absent ∨ pd.volume = RawNum.num 0)
    (hn : normalizePriceData now pd = some O) :
    O.volume = none ∧
    (addPriceData cfg now st token pd).volumeHistory token =
      cleanupList cfg.maxAge cfg.maxHistorySize now (fun v => v.timestamp)
        (st.volumeHistory token) ∧
    (e ∈ (addPriceData cfg now st token pd).volumeHistory token →
      e ∈ st.volumeHistory token) ∧
    (now - O.timestamp ≤ cfg.maxAge → 1 ≤ cfg.maxHistorySize →
      ((addPriceData cfg now st token pd).priceHistory token).getLast? = some O) := by
  have hv : O.volume = none := by
    have h := normalize_volume now pd O hn
    rcases hvol with h0 | h0 <;> rw [h0] at h <;> simp [decodeVolume] at h <;> exact h.symm
  refine ⟨hv, ?_, ?_, fun hage hM => addPriceData_getLast cfg now st token pd O hn hage hM⟩
  · rw [addPriceData_volumeHistory cfg now st token token pd O hn, if_pos rfl]
    simp [volPush, hv]
  · intro he
    rw [addPriceData_volumeHistory cfg now st token token pd O hn, if_pos rfl] at he
    rw [show st.volumeHistory token ++ volPush O = st.volumeHistory token by
      simp [volPush, hv]] at he
    exact cleanupList_mem he

/-- The C9 witness tick: an explicit zero volume. -/
def pdC9w : RawPriceData :=
  { price := RawNum.num 100, volume := RawNum.num 0, timestamp := some 999000,
    source := some ("okx") }

/-- The normalized form of `pdC9w`: the zero volume became null. -/
def obsC9w : Obs :=
  { price := 100, volume := none, timestamp := 999000, source := ("okx"), weight := 1 }

/-- One of the pre-existing volume entries of `stC1`. -/
def volEntryC9 : VolEntry :=
  { volume := 1000, price := 355/2, timestamp := 1000000, source := ("okx") }

/-- Witness for C9: a zero-volume insert on the populated store `stC1`. -/
theorem C9_witness :
    obsC9w.volume = none ∧
    (addPriceData defaultConfig nowC stC1 ("SOL/USDC") pdC9w).volumeHistory ("SOL/USDC") =
      cleanupList defaultConfig.maxAge defaultConfig.maxHistorySize nowC
        (fun v => v.timestamp) (stC1.volumeHistory ("SOL/USDC")) ∧
    (volEntryC9 ∈ (addPriceData defaultConfig nowC stC1 ("SOL/USDC") pdC9w).volumeHistory
      ("SOL/USDC") → volEntryC9 ∈ stC1.volumeHistory ("SOL/USDC")) ∧
    ((addPriceData defaultConfig nowC stC1 ("SOL/USDC") pdC9w).priceHistory
      ("SOL/USDC")).getLast? = some obsC9w := by
  have hn : normalizePriceData nowC pdC9w = some obsC9w := by
    simp [normalizePriceData, pdC9w, decodePrice, decodeVolume, decodeTimestamp,
      decodeSource, lookupWeight, sourceWeights, nowC, obsC9w]
  have h := C9_theorem defaultConfig nowC stC1 ("SOL/USDC") pdC9w obsC9w volEntryC9
    (Or.inr rfl) hn
  exact ⟨h.1, h.2.1, h.2.2.1, h.2.2.2 (by decide) (by decide)⟩

/-! ## Claim C6 -/

/-- C6 (confirmed): every reported confidence lies in [0, 1]; and for a
nonempty input with positive mean price (the claim's formula divides by
the mean, so it presumes one; the code guards `avgPrice > 0` explicitly),
the confidence equals exactly
`0.30·min(n/10,1) + 0.30·min(sources/3,1) + 0.30·max(0, 1 − σ/μ) +
0.10·meanSourceWeight`, clamped to [0, 1]. -/
theorem C6_theorem (l : List Obs) :
    (0 ≤ calculateConfidence l ∧ calculateConfidence l ≤ 1) ∧
    (l ≠ [] → 0 < mean (l.map (fun o => o.price)) →
      calculateConfidence l =
        max 0 (min 1
          ((3/10) * min ((l.length : ℝ) / 10) 1 +
           (3/10) * min (((dedupFirst (l.map (fun o => o.source))).length : ℝ) / 3) 1 +
           (3/10) * max 0 (1 - calculateStandardDeviation (l.map (fun o => o.price)) /
               ((mean (l.map (fun o => o.price)) : ℚ) : ℝ)) +
           (1/10) * ((mean (l.map (fun o => o.weight)) : ℚ) : ℝ)))) := by
  constructor
  · unfold calculateConfidence
    split
    · norm_num
    · exact ⟨le_max_left 0 _, max_le (by norm_num) (min_le_left 1 _)⟩
  · intro hne hmean
    unfold calculateConfidence
    rw [if_neg (fun h => hne (List.length_eq_zero.mp h)),
      if_pos (show (0:ℝ) < ((mean (l.map (fun o => o.price)) : ℚ) : ℝ) from by
        exact_mod_cast hmean)]
    ring_nf

/-- The C6 witness data: three equal-priced observations from distinct
sources. -/
def lC6 : List Obs :=
  [ { price := 100, volume := none, timestamp := 0, source := ("okx"), weight := 1 }
  , { price := 100, volume := none, timestamp := 0, source := ("binance"), weight := 1 }
  , { price := 100, volume := none, timestamp := 0, source := ("coinbase"), weight := 9/10 } ]

/-- Witness for C6 at the concrete list `lC6`. -/
theorem C6_witness :
    (0 ≤ calculateConfidence lC6 ∧ calculateConfidence lC6 ≤ 1) ∧
    calculateConfidence lC6 =
      max 0 (min 1
        ((3/10) * min ((lC6.length : ℝ) / 10) 1 +
         (3/10) * min (((dedupFirst (lC6.map (fun o => o.source))).length : ℝ) / 3) 1 +
         (3/10) * max 0 (1 - calculateStandardDeviation (lC6.map (fun o => o.price)) /
             ((mean (lC6.map (fun o => o.price)) : ℚ) : ℝ)) +
         (1/10) * ((mean (lC6.map (fun o => o.weight)) : ℚ) : ℝ))) := by
  refine ⟨(C6_theorem lC6).1, (C6_theorem lC6).2 ?_ ?_⟩
  · simp [lC6]
  · norm_num [mean, lC6]

/-! ## Claim C7 -/

/-- The z-score filter with its cutoff statistics (mean `m`, variance `v`)
held fixed, as the amended claim states it: a pure pointwise filter. -/
def zScoreFilterFixed (m v t : ℚ) (field : α → ℚ) (data : List α) : List α :=
  data.filter (fun d => decide ((field d - m) ^ 2 ≤ t ^ 2 * v))

/-- The IQR filter with its bounds held fixed, as the amended claim states
it: a pure pointwise filter. -/
def iqrFilterFixed (lo hi : ℚ) (field : α → ℚ) (data : List α) : List α :=
  data.filter (fun d => decide (lo ≤ field d ∧ field d ≤ hi))

lemma filter_idem (p : α → Bool) (l : List α) : (l.filter p).filter p = l.filter p := by
  rw [List.filter_filter]
  exact List.filter_congr (fun a _ => by cases hp : p a <;> simp [hp])

/-- An observation carrying only a price, for the filter scenarios. -/
def obsP (p : ℚ) : Obs :=
  { price := p, volume := none, timestamp := 0, source := ("feed"), weight := 1 }

/-- Eleven observations: nine at 0, one at 1, one at 10.  The first z-score
pass removes only the 10; recomputing mean and deviation on the survivors
then flags the 1 as well. -/
def zxC7 : List Obs :=
  [obsP 0, obsP 0, obsP 0, obsP 0, obsP 0, obsP 0, obsP 0, obsP 0, obsP 0, obsP 1, obsP 10]

/-- The survivors of the first z-score pass on `zxC7`. -/
def zxC7b : List Obs :=
  [obsP 0, obsP 0, obsP 0, obsP 0, obsP 0, obsP 0, obsP 0, obsP 0, obsP 0, obsP 1]

/-- The survivors of the second z-score pass: the 1 is gone too. -/
def zxC7c : List Obs :=
  [obsP 0, obsP 0, obsP 0, obsP 0, obsP 0, obsP 0, obsP 0, obsP 0, obsP 0]

/-- Six observations for the IQR scenario: the first pass removes the 100,
and the recomputed quartiles of the survivors then remove the 1. -/
def ixC7 : List Obs := [obsP 0, obsP 0, obsP 0, obsP 0, obsP 1, obsP 100]

/-- The survivors of the first IQR pass on `ixC7`. -/
def ixC7b : List Obs := [obsP 0, obsP 0, obsP 0, obsP 0, obsP 1]

/-- The survivors of the second IQR pass: the 1 is gone too. -/
def ixC7c : List Obs := [obsP 0, obsP 0, obsP 0, obsP 0]

set_option maxRecDepth 10000 in
lemma zxC7_pass1 :
    removeOutliersZScore (5/2) zxC7 (zxC7.map (fun o => o.price)) = zxC7b := by
  simp [removeOutliersZScore, zxC7, zxC7b, obsP, mean, variance, List.filter, List.zip,
    List.zipWith]
  norm_num

set_option maxRecDepth 10000 in
lemma zxC7_pass2 :
    removeOutliersZScore (5/2) zxC7b (zxC7b.map (fun o => o.price)) = zxC7c := by
  simp [removeOutliersZScore, zxC7b, zxC7c, obsP, mean, variance, List.filter, List.zip,
    List.zipWith]
  norm_num

set_option maxRecDepth 10000 in
lemma ixC7_pass1 :
    removeOutliersIQR (3/2) (fun o => o.price) ixC7 = ixC7b := by
  simp [removeOutliersIQR, iqrBounds, ixC7, ixC7b, obsP, List.filter,
    List.insertionSort, List.orderedInsert]
  norm_num [quantileSorted_six_q1, quantileSorted_six_q3]

set_option maxRecDepth 10000 in
lemma ixC7_pass2 :
    removeOutliersIQR (3/2) (fun o => o.price) ixC7b = ixC7c := by
  simp [removeOutliersIQR, iqrBounds, ixC7b, ixC7c, obsP, List.filter,
    List.insertionSort, List.orderedInsert]
  norm_num [quantileSorted_five_q1, quantileSorted_five_q3]

/-- C7, counterexample: neither filter is idempotent on its output.  On
`zxC7` the z-score filter first removes only the 10, and a second
application — which recomputes mean and standard deviation on the
survivors — also removes the 1; on `ixC7` the IQR filter first removes the
100, and a second application — which recomputes the quartiles — also
removes the 1. -/
theorem C7_counterexample :
    removeOutliersZScore (5/2)
        (removeOutliersZScore (5/2) zxC7 (zxC7.map (fun o => o.price)))
        ((removeOutliersZScore (5/2) zxC7 (zxC7.map (fun o => o.price))).map
          (fun o => o.price)) ≠
      removeOutliersZScore (5/2) zxC7 (zxC7.map (fun o => o.price)) ∧
    removeOutliersIQR (3/2) (fun o => o.price)
        (removeOutliersIQR (3/2) (fun o => o.price) ixC7) ≠
      removeOutliersIQR (3/2) (fun o => o.price) ixC7 := by
  constructor
  · rw [zxC7_pass1, zxC7_pass2]
    intro h
    have := congrArg List.length h
    simp [zxC7b, zxC7c] at this
  · rw [ixC7_pass1, ixC7_pass2]
    intro h
    have := congrArg List.length h
    simp [ixC7b, ixC7c] at this

/-- C7, amended: each filter is idempotent once its cutoff statistics are
held fixed — with at least 3 values and a nonzero variance the z-score
filter is exactly the pointwise filter by the bounds computed from its
input, and with at least 4 entries the IQR filter is exactly the pointwise
filter by the bounds computed from its input, and such pointwise filters
are idempotent; but because each filter recomputes its statistics on the
survivors, a second application can remove further elements (see the
counterexample), so the filters are not idempotent in general. -/
theorem C7_theorem (t mult m v lo hi : ℚ) (l : List Obs) :
    (¬ (l.map (fun o => o.price)).length < 3 →
      variance (l.map (fun o => o.price)) ≠ 0 →
      removeOutliersZScore t l (l.map (fun o => o.price)) =
        zScoreFilterFixed (mean (l.map (fun o => o.price)))
          (variance (l.map (fun o => o.price))) t (fun o => o.price) l) ∧
    (zScoreFilterFixed m v t (fun o => o.price)
        (zScoreFilterFixed m v t (fun o => o.price) l) =
      zScoreFilterFixed m v t (fun o => o.price) l) ∧
    (¬ l.length < 4 →
      removeOutliersIQR mult (fun o => o.price) l =
        iqrFilterFixed (iqrBounds mult (l.map (fun o => o.price))).1
          (iqrBounds mult (l.map (fun o => o.price))).2 (fun o => o.price) l) ∧
    (iqrFilterFixed lo hi (fun o => o.price)
        (iqrFilterFixed lo hi (fun o => o.price) l) =
      iqrFilterFixed lo hi (fun o => o.price) l) := by
  refine ⟨?_, ?_, ?_, ?_⟩
  · intro h3 hv
    have h0 := removeOutliersZScore_eq_filter t (fun o => o.price) l
    rw [h0 h3 hv]
    unfold zScoreFilterFixed
    rfl
  · unfold zScoreFilterFixed
    exact filter_idem _ l
  · intro h4
    unfold removeOutliersIQR iqrFilterFixed
    rw [if_neg h4]
  · unfold iqrFilterFixed
    exact filter_idem _ l

/-- Witness for C7 at the concrete list `ixC7` with the default
thresholds. -/
theorem C7_witness :
    removeOutliersZScore (5/2) ixC7 (ixC7.map (fun o => o.price)) =
      zScoreFilterFixed (mean (ixC7.map (fun o => o.price)))
        (variance (ixC7.map (fun o => o.price))) (5/2) (fun o => o.price) ixC7 ∧
    zScoreFilterFixed 0 1 (5/2) (fun o => o.price)
        (zScoreFilterFixed 0 1 (5/2) (fun o => o.price) ixC7) =
      zScoreFilterFixed 0 1 (5/2) (fun o => o.price) ixC7 ∧
    removeOutliersIQR (3/2) (fun o => o.price) ixC7 =
      iqrFilterFixed (iqrBounds (3/2) (ixC7.map (fun o => o.price))).1
        (iqrBounds (3/2) (ixC7.map (fun o => o.price))).2 (fun o => o.price) ixC7 ∧
    iqrFilterFixed 0 1 (fun o => o.price)
        (iqrFilterFixed 0 1 (fun o => o.price) ixC7) =
      iqrFilterFixed 0 1 (fun o => o.price) ixC7 := by
  have h := C7_theorem (5/2) (3/2) 0 1 0 1 ixC7
  have h3 : ¬ (ixC7.map (fun o => o.price)).length < 3 := by simp [ixC7]
  have hv : variance (ixC7.map (fun o => o.price)) ≠ 0 := by
    norm_num [variance, mean, ixC7, obsP]
  have h4 : ¬ ixC7.length < 4 := by simp [ixC7]
  exact ⟨h.1 h3 hv, h.2.1, h.2.2.1 h4, h.2.2.2⟩

/-! ## Claim C2 -/

/-- A raw tick with a positive volume 0.005 strictly below the default
`minVolume` floor 0.01. -/
def pdSmall : RawPriceData :=
  { price := RawNum.num 177, volume := RawNum.num (1/200), timestamp := none,
    source := some ("okx") }

/-- C2, counterexample: inserting an observation with a positive volume
0.005 strictly below `minVolume = 0.01` DOES append an entry to the volume
sequence — `addPriceData` pushes every non-null volume, and the
`minVolume` floor is only applied later, when VWAP selects its inputs. -/
theorem C2_counterexample :
    (0 < (1/200 : ℚ) ∧ (1/200 : ℚ) < defaultConfig.minVolume) ∧
    (addPriceData defaultConfig nowC initialState ("SOL/USDC") pdSmall).volumeHistory
      ("SOL/USDC") =
      [{ volume := 1/200, price := 177, timestamp := 1000000, source := ("okx") }] := by
  constructor
  · constructor <;> norm_num [defaultConfig]
  · simp [addPriceData, normalizePriceData, pdSmall, decodePrice, decodeVolume,
      decodeTimestamp, decodeSource, lookupWeight, sourceWeights, cleanupOldData,
      cleanupList, initialState, nowC, defaultConfig, List.filter]

/-- C2, amended: the volume sequence holds only observations with a
non-null (hence nonzero) volume — an invariant preserved by every insert —
while the `minVolume` floor (default 0.01) is enforced when VWAP selects
its inputs: every observation VWAP considers has volume ≥ `minVolume`, so
an entry below the floor, although stored, never participates in VWAP. -/
theorem C2_theorem (cfg : Config) (now : ℤ) (st : ServiceState) (token t' : String)
    (pd : RawPriceData) (e e2 : VolEntry) (w : ℤ) :
    ((∀ x ∈ st.volumeHistory t', x.volume ≠ 0) →
      e ∈ (addPriceData cfg now st token pd).volumeHistory t' → e.volume ≠ 0) ∧
    (e2 ∈ vwapRelevant cfg now st token w → cfg.minVolume ≤ e2.volume) := by
  constructor
  · intro hall he
    cases hno : normalizePriceData now pd with
    | none =>
      rw [show addPriceData cfg now st token pd = st by
        unfold addPriceData; rw [hno]] at he
      exact hall e he
    | some nd =>
      rw [addPriceData_volumeHistory cfg now st token t' pd nd hno] at he
      by_cases ht : t' = token
      · rw [if_pos ht] at he
        have hmem := cleanupList_mem he
        rcases List.mem_append.mp hmem with hmem | hmem
        · exact hall e (ht ▸ hmem)
        · cases hvnd : nd.volume with
          | none => rw [volPush, hvnd] at hmem; simp at hmem
          | some v =>
            rw [volPush, hvnd] at hmem
            simp only [List.mem_singleton] at hmem
            subst hmem
            have hd := normalize_volume now pd nd hno
            rw [hvnd] at hd
            exact decodeVolume_ne_zero pd.volume v hd
      · rw [if_neg ht] at he
        exact hall e he
  · intro he2
    have h := List.mem_filter.mp he2
    exact (of_decide_eq_true h.2).2

/-- The below-floor entry pushed by the C2 witness insert. -/
def volEntrySmall : VolEntry :=
  { volume := 1/200, price := 177, timestamp := 1000000, source := ("okx") }

/-- One of the full-volume entries of `stC1`. -/
def volEntryBig : VolEntry :=
  { volume := 1000, price := 355/2, timestamp := 1000000, source := ("okx") }

set_option maxRecDepth 10000 in
lemma stC1_addSmall :
    (addPriceData defaultConfig nowC stC1 ("SOL/USDC") pdSmall).volumeHistory ("SOL/USDC") =
      volListC1 ++ [volEntrySmall] := by
  have hn : normalizePriceData nowC pdSmall =
      some { price := 177, volume := some (1/200), timestamp := 1000000,
             source := ("okx"), weight := 1 } := by
    simp [normalizePriceData, pdSmall, decodePrice, decodeVolume, decodeTimestamp,
      decodeSource, lookupWeight, sourceWeights, nowC]
  rw [addPriceData_volumeHistory defaultConfig nowC stC1 ("SOL/USDC") ("SOL/USDC") pdSmall _ hn,
    if_pos rfl, stC1_volumeHistory]
  simp [volPush, volListC1, volEntrySmall, cleanupList, nowC, defaultConfig, List.filter]

set_option maxRecDepth 10000 in
lemma stC1_vwapRelevant :
    vwapRelevant defaultConfig nowC stC1 ("SOL/USDC") 3600000 = volListC1 := by
  rw [vwapRelevant, stC1_volumeHistory]
  simp [volListC1, nowC, defaultConfig, List.filter]
  norm_num

/-- Witness for C2: after inserting the sub-floor tick on the populated
store, the new entry's volume is nonzero (non-null), and a VWAP-selected
entry respects the floor. -/
theorem C2_witness :
    volEntrySmall.volume ≠ 0 ∧ defaultConfig.minVolume ≤ volEntryBig.volume := by
  constructor
  · refine (C2_theorem defaultConfig nowC stC1 ("SOL/USDC") ("SOL/USDC") pdSmall
      volEntrySmall volEntryBig 3600000).1 ?_ ?_
    · rw [stC1_volumeHistory]
      intro x hx
      fin_cases hx <;> norm_num [volListC1]
    · rw [stC1_addSmall]
      simp
  · refine (C2_theorem defaultConfig nowC stC1 ("SOL/USDC") ("SOL/USDC") pdSmall
      volEntrySmall volEntryBig 3600000).2 ?_
    rw [stC1_vwapRelevant]
    simp [volListC1, volEntryBig]

/-! ## Claim C10 -/

/-- C10 (confirmed): `clearTokenData(P)` empties exactly P's price history
and P's volume history; any other token Q keeps both its histories, and
the statistics counters are unchanged. -/
theorem C10_theorem (st : ServiceState) (P Q : String) (h : Q ≠ P) :
    (clearTokenData st P).priceHistory P = [] ∧
    (clearTokenData st P).volumeHistory P = [] ∧
    (clearTokenData st P).priceHistory Q = st.priceHistory Q ∧
    (clearTokenData st P).volumeHistory Q = st.volumeHistory Q ∧
    (clearTokenData st P).stats = st.stats := by
  refine ⟨?_, ?_, ?_, ?_, rfl⟩ <;> simp [clearTokenData, h]

/-- Witness for C10: clearing "BTC/USDT" on the populated store `stC1`
leaves "SOL/USDC" and the counters intact. -/
theorem C10_witness :
    (clearTokenData stC1 ("BTC/USDT")).priceHistory ("BTC/USDT") = [] ∧
    (clearTokenData stC1 ("BTC/USDT")).volumeHistory ("BTC/USDT") = [] ∧
    (clearTokenData stC1 ("BTC/USDT")).priceHistory ("SOL/USDC") =
      stC1.priceHistory ("SOL/USDC") ∧
    (clearTokenData stC1 ("BTC/USDT")).volumeHistory ("SOL/USDC") =
      stC1.volumeHistory ("SOL/USDC") ∧
    (clearTokenData stC1 ("BTC/USDT")).stats = stC1.stats :=
  C10_theorem stC1 ("BTC/USDT") ("SOL/USDC") (by decide)

end PriceAggregation
